import Mathlib

/-!
Verification of the Basic Geofence Checker frontend
(src/frontend/src/App.js).

The source file contains two successive versions of the React component
App: a simple version (lines 1-262) and an enhanced version (lines
263-743).  The enhanced version adds a bounded location-history buffer,
continuous monitoring via watchPosition, a cosmetic progress bar, and a
confidence-tier colour mapping.  Both versions are embedded below; the
enhanced one at top level, the simple one in the namespace Simple.

Modelling conventions:
* React state becomes an explicit AppState record; each event handler is
  a pure function from the state (plus the outcome of its asynchronous
  collaborator) to the next state.
* Network interaction is made observable: handlers that send an HTTP
  request also return the request they built, as an Option that is none
  exactly when the code returns before reaching fetch.
* JS numbers that are only stored and forwarded, never computed with
  (coordinates, accuracies, distances), are embedded as Int; timestamps
  from Date.now() as Nat.
* React closures capture the state values of the render in which a
  callback was created.  Callbacks handed to long-lived collaborators
  (watchPosition) therefore read captured values, not current state;
  the embedding keeps such captured values as explicit parameters.
-/

/-- Character-level prefix test used by the substring search below. -/
def charsLeadWith : List Char → List Char → Bool
  | [], _ => true
  | _ :: _, [] => false
  | a :: as, b :: bs => a == b && charsLeadWith as bs

/-- Substring search over character lists: does the second list contain
the first one as a contiguous run. -/
def charsContain (pat : List Char) : List Char → Bool
  | [] => charsLeadWith pat []
  | c :: rest => charsLeadWith pat (c :: rest) || charsContain pat rest

/-- JS s.includes(pat): substring containment on strings. -/
def jsIncludes (s pat : String) : Bool :=
  charsContain pat.toList s.toList

/-- JS arr.slice(-k) for k > 0: the last min(k, length) elements of the
array, in order. -/
def jsSliceLast (k : Nat) (l : List α) : List α :=
  l.drop (l.length - k)

/-- JS x || fallback where x is an optional string: both an absent and
an empty string are falsy and select the fallback. -/
def jsOrString (x : Option String) (fallback : String) : String :=
  match x with
  | some s => if s = "" then fallback else s
  | none => fallback

/-- JS s || undefined for a string s: the empty string becomes
undefined (the field is then dropped from the JSON body). -/
def jsOrUndefined (s : String) : Option String :=
  if s = "" then none else some s

/-- JS s.trim(): strips leading and trailing whitespace. -/
def jsTrim (s : String) : String :=
  String.mk
    (((s.toList.dropWhile Char.isWhitespace).reverse.dropWhile
        Char.isWhitespace).reverse)

/-! ## Data model shared by both versions -/

/-- Resolved building, the parsed success payload of POST /api/building:
name, formatted_address, lat, lng and an optional type. -/
structure Building where
  name : String
  formatted_address : String
  lat : Int
  lng : Int
  type : Option String
deriving DecidableEq

/-- Parsed location-quality block of a check-location success payload;
accuracy is a number or the literal string Unknown. -/
inductive QualityAccuracy where
  | num (n : Int)
  | unknown
deriving DecidableEq

/-- location_quality object of a check-location success payload. -/
structure LocationQuality where
  confidence : String
  accuracy : QualityAccuracy
  stability : Option String
deriving DecidableEq

/-- Parsed success payload of POST /api/check-location. -/
structure CheckResult where
  is_within_range : Bool
  distance : Int
  confidence_level : String
  location_quality : LocationQuality
deriving DecidableEq

/-- Options object handed to getCurrentPosition / watchPosition. -/
structure GeoOptions where
  enableHighAccuracy : Bool
  timeout : Nat
  maximumAge : Nat
deriving DecidableEq

/-- Raw coordinates delivered by the geolocation provider
(position.coords). -/
structure Coords where
  lat : Int
  lng : Int
  accuracy : Int
deriving DecidableEq

/-- Outcome of one getCurrentPosition call or one watchPosition
callback: a position or a provider error with a message. -/
inductive GeoResult where
  | position (c : Coords)
  | geoError (msg : String)
deriving DecidableEq

/-- Body of POST /api/building as built by searchBuilding; city and
country are dropped from the JSON when empty (s || undefined). -/
structure LookupRequest where
  name : String
  city : Option String
  country : Option String
deriving DecidableEq

/-- Observed outcome of the building lookup round trip: parsed success
payload, non-2xx response with an optional string detail field, or a
rejected fetch whose error message is msg. -/
inductive LookupOutcome where
  | ok (data : Building)
  | httpErr (detail : Option String)
  | netErr (msg : String)
deriving DecidableEq

/-- Observed outcome of the check-location round trip. -/
inductive VerifyOutcome where
  | ok (data : CheckResult)
  | httpErr (detail : Option String)
  | netErr (msg : String)
deriving DecidableEq

/-! ## Enhanced version (App.js lines 263-743) -/

/-- One location observation of the enhanced version (lines 363-368 and
411-416): coordinates, accuracy, and a Date.now() timestamp. -/
structure Sample where
  lat : Int
  lng : Int
  accuracy : Int
  timestamp : Nat
deriving DecidableEq

/-- Builds the newLocation object from provider coordinates and the
current Date.now() value. -/
def mkSample (c : Coords) (now : Nat) : Sample :=
  { lat := c.lat, lng := c.lng, accuracy := c.accuracy, timestamp := now }

/-- Line 282: maximum number of location history points to keep. -/
def MAX_HISTORY_POINTS : Nat := 10

/-- The functional history update of lines 373-376 and 421-424:
prev => [...prev, newLocation].slice(-MAX_HISTORY_POINTS). -/
def histAppend (prev : List Sample) (newLocation : Sample) : List Sample :=
  jsSliceLast MAX_HISTORY_POINTS (prev ++ [newLocation])

/-- React state of the enhanced App component (lines 266-279), with the
useState initial values in initialState. -/
structure AppState where
  buildingName : String
  city : String
  country : String
  building : Option Building
  userLocation : Option Sample
  locationHistory : List Sample
  checkResult : Option CheckResult
  loading : Bool
  error : Option String
  mapUrl : Option String
  watchId : Option Nat
  isMonitoring : Bool
  locatingProgress : Nat
deriving DecidableEq

/-- The useState initial values of lines 266-278. -/
def initialState : AppState :=
  { buildingName := "", city := "", country := "", building := none,
    userLocation := none, locationHistory := [], checkResult := none,
    loading := false, error := none, mapUrl := none, watchId := none,
    isMonitoring := false, locatingProgress := 0 }

/-- Interval of the cosmetic progress timer (line 298): 200 ms. -/
def locatingIntervalMs : Nat := 200

/-- One tick of the progress interval (lines 291-297): at 100 the
interval clears itself and the value stays 100, otherwise the value
grows by 10.  The Bool records whether the interval keeps running. -/
def locatingTick (prev : Nat) : Nat × Bool :=
  if 100 ≤ prev then (100, false) else (prev + 10, true)

/-- Progress value after n ticks of the interval started by
startLocatingProgress, which first resets the value to 0 (line 289). -/
def progressTrace : Nat → Nat
  | 0 => 0
  | n + 1 => (locatingTick (progressTrace n)).1

/-- stopLocatingProgress (lines 302-305): clears the interval and
forces the progress value to 100. -/
def stopLocatingProgress (st : AppState) : AppState :=
  { st with locatingProgress := 100 }

/-- Map link built on a successful lookup (line 339). -/
def osmUrl (data : Building) : String :=
  "https://www.openstreetmap.org/#map=18/" ++ toString data.lat ++ "/" ++ toString data.lng

/-- searchBuilding (lines 308-347) as a function of the state and the
observed outcome of the round trip.  Returns the next state and the
request body, none when the empty-name guard returns before fetch. -/
def searchBuilding (st : AppState) (resp : LookupOutcome) :
    AppState × Option LookupRequest :=
  if jsTrim st.buildingName = "" then
    ({ st with error := some "Please enter a building name" }, none)
  else
    let req : LookupRequest :=
      { name := st.buildingName, city := jsOrUndefined st.city,
        country := jsOrUndefined st.country }
    let st1 := { st with loading := true, error := none }
    match resp with
    | .ok data =>
        ({ st1 with building := some data, checkResult := none,
                    mapUrl := some (osmUrl data), loading := false }, some req)
    | .httpErr d =>
        ({ st1 with error := some (jsOrString d "Failed to find building"),
                    building := none, mapUrl := none, loading := false }, some req)
    | .netErr m =>
        ({ st1 with error := some m, building := none, mapUrl := none,
                    loading := false }, some req)

/-- Options object of the enhanced getCurrentPosition call
(lines 386-390). -/
def getCurrentPositionOptions : GeoOptions :=
  { enableHighAccuracy := true, timeout := 15000, maximumAge := 0 }

/-- Options object of the watchPosition call (lines 430-434). -/
def watchPositionOptions : GeoOptions :=
  { enableHighAccuracy := true, timeout := 15000, maximumAge := 0 }

/-- Synchronous part of getUserLocation (lines 350-359): clear the
error; if geolocation is unsupported surface that error, otherwise set
loading and start the progress loop at 0. -/
def getUserLocationStart (st : AppState) (supported : Bool) : AppState :=
  let st0 := { st with error := none }
  if supported then
    { st0 with loading := true, locatingProgress := 0 }
  else
    { st0 with error := some "Geolocation is not supported by your browser" }

/-- Completion of getUserLocation (lines 361-385): on a position,
store the sample, append it to the history, clear loading and stop the
progress loop; on a provider error, surface the message, clear loading
and stop the progress loop without touching the sample or history. -/
def getUserLocationComplete (st : AppState) (res : GeoResult) (now : Nat) : AppState :=
  match res with
  | .position c =>
      let newLocation := mkSample c now
      stopLocatingProgress
        { st with userLocation := some newLocation,
                  locationHistory := histAppend st.locationHistory newLocation,
                  loading := false }
  | .geoError m =>
      stopLocatingProgress
        { st with error := some ("Error getting location: " ++ m),
                  loading := false }

/-- startLocationMonitoring (lines 395-438): no-op when a watch is
already registered; otherwise clear the error, set the monitoring
flag, fail if unsupported, else register the watch with handle newId.
The callbacks registered here capture the watchId value of this
render, which the guard has just checked to be null. -/
def startLocationMonitoring (st : AppState) (supported : Bool) (newId : Nat) : AppState :=
  if st.watchId.isSome then st
  else
    let st1 := { st with error := none, isMonitoring := true }
    if supported then { st1 with watchId := some newId }
    else
      { st1 with error := some "Geolocation is not supported by your browser",
                 isMonitoring := false }

/-- Body of stopLocationMonitoring (lines 441-447), parameterised by
the watchId value the calling closure captured at its render: only
when that captured value is non-null are clearWatch and
setWatchId(null) executed.  The second component is the handle passed
to clearWatch, none when clearWatch is not called. -/
def stopLocationMonitoringWith (captured : Option Nat) (st : AppState) :
    AppState × Option Nat :=
  match captured with
  | some id => ({ st with watchId := none, isMonitoring := false }, some id)
  | none => ({ st with isMonitoring := false }, none)

/-- stopLocationMonitoring as invoked from a fresh render (the Stop
button), where the captured watchId is the current one. -/
def stopLocationMonitoring (st : AppState) : AppState × Option Nat :=
  stopLocationMonitoringWith st.watchId st

/-- watchPosition success callback (lines 410-425): store the sample
and append it to the history; loading and progress are untouched. -/
def watchPositionOnSample (st : AppState) (c : Coords) (now : Nat) : AppState :=
  let newLocation := mkSample c now
  { st with userLocation := some newLocation,
            locationHistory := histAppend st.locationHistory newLocation }

/-- watchPosition error callback (lines 426-429): surface the error,
then run stopLocationMonitoring.  The stopLocationMonitoring closure it
calls captured the watchId of the render that registered the watch
(null, since the start guard requires that), so captured is that
stale value, not the current state. -/
def watchPositionOnError (captured : Option Nat) (st : AppState) (msg : String) :
    AppState × Option Nat :=
  stopLocationMonitoringWith captured
    { st with error := some ("Error monitoring location: " ++ msg) }

/-- Body of POST /api/check-location as built by the enhanced
checkLocation (lines 464-470); city, country and location_history are
dropped from the JSON when undefined. -/
structure CheckRequest where
  building_name : String
  city : Option String
  country : Option String
  user_location : Sample
  location_history : Option (List Sample)
deriving DecidableEq

/-- Enhanced checkLocation (lines 450-485) as a function of the state
and the observed outcome of the round trip.  Returns the next state
and the request body, none when the precondition guard returns before
fetch. -/
def checkLocation (st : AppState) (resp : VerifyOutcome) :
    AppState × Option CheckRequest :=
  match st.building, st.userLocation with
  | some _, some loc =>
      let req : CheckRequest :=
        { building_name := st.buildingName, city := jsOrUndefined st.city,
          country := jsOrUndefined st.country, user_location := loc,
          location_history :=
            if 3 ≤ st.locationHistory.length then
              some (jsSliceLast 3 st.locationHistory)
            else none }
      let st1 := { st with loading := true, error := none }
      match resp with
      | .ok data => ({ st1 with checkResult := some data, loading := false }, some req)
      | .httpErr d =>
          ({ st1 with error := some (jsOrString d "Failed to check location"),
                      loading := false }, some req)
      | .netErr m => ({ st1 with error := some m, loading := false }, some req)
  | _, _ =>
      ({ st with error := some "Building and user location are required" }, none)

/-- getConfidenceColor (lines 502-510): null, undefined and the empty
string short-circuit to red, then substring tests in order. -/
def getConfidenceColor (confidence : Option String) : String :=
  match confidence with
  | none => "#f44336"
  | some c =>
      if c = "" then "#f44336"
      else if jsIncludes c "Definitely inside" then "#4caf50"
      else if jsIncludes c "Likely inside" then "#8bc34a"
      else if jsIncludes c "uncertain" then "#ffeb3b"
      else if jsIncludes c "Likely outside" then "#ff9800"
      else "#f44336"

/-- Severity tiers of the confidence mapper, spec section 4.5. -/
inductive Tier where
  | A
  | B
  | C
  | D
  | E
deriving DecidableEq

/-- Modelled from the spec: the pure function severityTier of section
4.5, substring containment tested in the listed order, first match
wins, Tier E for everything else. -/
def severityTier (confidenceLevel : String) : Tier :=
  if jsIncludes confidenceLevel "Definitely inside" then .A
  else if jsIncludes confidenceLevel "Likely inside" then .B
  else if jsIncludes confidenceLevel "uncertain" then .C
  else if jsIncludes confidenceLevel "Likely outside" then .D
  else .E

/-- Colour rendering of each tier as used by the result card. -/
def tierColor : Tier → String
  | .A => "#4caf50"
  | .B => "#8bc34a"
  | .C => "#ffeb3b"
  | .D => "#ff9800"
  | .E => "#f44336"

/-! ## Append events feeding the history buffer -/

/-- One successful sample delivery, either through a one-shot
acquisition (getCurrentPosition success) or through a monitoring
update (watchPosition success). -/
inductive AppendEvent where
  | oneShot (c : Coords) (now : Nat)
  | monitorUpd (c : Coords) (now : Nat)
deriving DecidableEq

/-- The sample such an event appends. -/
def eventSample : AppendEvent → Sample
  | .oneShot c now => mkSample c now
  | .monitorUpd c now => mkSample c now

/-- State transition of one append event. -/
def applyAppend (st : AppState) (e : AppendEvent) : AppState :=
  match e with
  | .oneShot c now => getUserLocationComplete st (GeoResult.position c) now
  | .monitorUpd c now => watchPositionOnSample st c now

/-! ## Simple version (App.js lines 1-262) -/

namespace Simple

/-- Location observation of the simple version (lines 72-76): no
timestamp. -/
structure Sample where
  lat : Int
  lng : Int
  accuracy : Int
deriving DecidableEq

/-- React state of the simple App component (lines 5-13). -/
structure AppState where
  buildingName : String
  city : String
  country : String
  building : Option Building
  userLocation : Option Sample
  checkResult : Option CheckResult
  loading : Bool
  error : Option String
  mapUrl : Option String
deriving DecidableEq

/-- Options object of the simple getCurrentPosition call (line 83):
timeout 10000, not 15000. -/
def getCurrentPositionOptions : GeoOptions :=
  { enableHighAccuracy := true, timeout := 10000, maximumAge := 0 }

/-- Simple searchBuilding (lines 19-58); textually identical to the
enhanced one. -/
def searchBuilding (st : AppState) (resp : LookupOutcome) :
    AppState × Option LookupRequest :=
  if jsTrim st.buildingName = "" then
    ({ st with error := some "Please enter a building name" }, none)
  else
    let req : LookupRequest :=
      { name := st.buildingName, city := jsOrUndefined st.city,
        country := jsOrUndefined st.country }
    let st1 := { st with loading := true, error := none }
    match resp with
    | .ok data =>
        ({ st1 with building := some data, checkResult := none,
                    mapUrl := some (osmUrl data), loading := false }, some req)
    | .httpErr d =>
        ({ st1 with error := some (jsOrString d "Failed to find building"),
                    building := none, mapUrl := none, loading := false }, some req)
    | .netErr m =>
        ({ st1 with error := some m, building := none, mapUrl := none,
                    loading := false }, some req)

/-- Synchronous part of the simple getUserLocation (lines 61-69). -/
def getUserLocationStart (st : AppState) (supported : Bool) : AppState :=
  let st0 := { st with error := none }
  if supported then { st0 with loading := true }
  else { st0 with error := some "Geolocation is not supported by your browser" }

/-- Completion of the simple getUserLocation (lines 70-84): no history,
no progress, no timestamp. -/
def getUserLocationComplete (st : AppState) (res : GeoResult) : AppState :=
  match res with
  | .position c =>
      { st with userLocation := some { lat := c.lat, lng := c.lng, accuracy := c.accuracy },
                loading := false }
  | .geoError m =>
      { st with error := some ("Error getting location: " ++ m), loading := false }

/-- Body of POST /api/check-location as built by the simple
checkLocation (lines 102-108): flat user_lat and user_lng fields, no
accuracy, no history. -/
structure CheckRequest where
  building_name : String
  city : Option String
  country : Option String
  user_lat : Int
  user_lng : Int
deriving DecidableEq

/-- Simple checkLocation (lines 88-123). -/
def checkLocation (st : AppState) (resp : VerifyOutcome) :
    AppState × Option CheckRequest :=
  match st.building, st.userLocation with
  | some _, some loc =>
      let req : CheckRequest :=
        { building_name := st.buildingName, city := jsOrUndefined st.city,
          country := jsOrUndefined st.country, user_lat := loc.lat,
          user_lng := loc.lng }
      let st1 := { st with loading := true, error := none }
      match resp with
      | .ok data => ({ st1 with checkResult := some data, loading := false }, some req)
      | .httpErr d =>
          ({ st1 with error := some (jsOrString d "Failed to check location"),
                      loading := false }, some req)
      | .netErr m => ({ st1 with error := some m, loading := false }, some req)
  | _, _ =>
      ({ st with error := some "Building and user location are required" }, none)

end Simple

/-! ## Projection of the enhanced state onto the simple state -/

/-- Forgets the timestamp of an enhanced sample. -/
def projSample (s : Sample) : Simple.Sample :=
  { lat := s.lat, lng := s.lng, accuracy := s.accuracy }

/-- Forgets the enhanced-only state: history buffer, monitoring state,
progress value, and sample timestamps. -/
def projState (st : AppState) : Simple.AppState :=
  { buildingName := st.buildingName, city := st.city, country := st.country,
    building := st.building, userLocation := st.userLocation.map projSample,
    checkResult := st.checkResult, loading := st.loading, error := st.error,
    mapUrl := st.mapUrl }

/-- Top-level JSON field names present in an enhanced check-location
body (JSON.stringify drops undefined members). -/
def checkRequestFields (r : CheckRequest) : List String :=
  ["building_name"]
    ++ (match r.city with | some _ => ["city"] | none => [])
    ++ (match r.country with | some _ => ["country"] | none => [])
    ++ ["user_location"]
    ++ (match r.location_history with | some _ => ["location_history"] | none => [])

/-- Top-level JSON field names present in a simple check-location
body. -/
def simpleCheckRequestFields (r : Simple.CheckRequest) : List String :=
  ["building_name"]
    ++ (match r.city with | some _ => ["city"] | none => [])
    ++ (match r.country with | some _ => ["country"] | none => [])
    ++ ["user_lat", "user_lng"]

/-! ## Concrete values used by witnesses and counterexamples -/

/-- A concrete resolved building. -/
def b0 : Building :=
  { name := "Empire State Building",
    formatted_address := "20 W 34th St, New York", lat := 40, lng := -73,
    type := none }

/-- Concrete samples. -/
def s0 : Sample := { lat := 40, lng := -73, accuracy := 5, timestamp := 1000 }

def s1 : Sample := { lat := 41, lng := -73, accuracy := 6, timestamp := 2000 }

def s2 : Sample := { lat := 42, lng := -73, accuracy := 7, timestamp := 3000 }

/-- A concrete parsed check-location success payload. -/
def cres0 : CheckResult :=
  { is_within_range := true, distance := 12,
    confidence_level := "Definitely inside boundary",
    location_quality :=
      { confidence := "High", accuracy := QualityAccuracy.num 5, stability := none } }

/-- State with a three-sample history, for the C2 witness. -/
def cst2 : AppState :=
  { initialState with buildingName := "Empire State Building",
                      building := some b0, userLocation := some s2,
                      locationHistory := [s0, s1, s2] }

/-- The request the enhanced checkLocation builds from cst2. -/
def creq2 : CheckRequest :=
  { building_name := "Empire State Building", city := none, country := none,
    user_location := s2, location_history := some [s0, s1, s2] }

/-- State with a location but no resolved building, for the C4
witness. -/
def cst4 : AppState :=
  { initialState with buildingName := "Empire State Building",
                      userLocation := some s0, locationHistory := [s0] }

/-- State ready for verification, for the C5 theorems. -/
def cst5 : AppState :=
  { initialState with buildingName := "Empire State Building",
                      building := some b0, userLocation := some s0,
                      locationHistory := [s0] }

/-- State with a non-empty building name, for the C6 theorems. -/
def cst6 : AppState :=
  { initialState with buildingName := "Empire State Building",
                      building := some b0, mapUrl := some (osmUrl b0) }

/-- State holding a previous verification result, for the C10
witness. -/
def cst10 : AppState :=
  { initialState with buildingName := "Empire State Building",
                      userLocation := some s0, locationHistory := [s0],
                      checkResult := some cres0 }

/-- State for the C9 theorems: resolved building, current sample,
history still short. -/
def cst9 : AppState :=
  { initialState with buildingName := "Empire State Building",
                      building := some b0, userLocation := some s0 }

/-- The enhanced request built from cst9. -/
def creq9 : CheckRequest :=
  { building_name := "Empire State Building", city := none, country := none,
    user_location := s0, location_history := none }

/-- The simple request built from the projection of cst9. -/
def creqS9 : Simple.CheckRequest :=
  { building_name := "Empire State Building", city := none, country := none,
    user_lat := 40, user_lng := -73 }

/-- Provider coordinates for the C7 scenario. -/
def c7c : Coords := { lat := 40, lng := -73, accuracy := 5 }

/-- Monitoring state of the C7 scenario: monitoring was started from
the initial state (the render whose watchId the callbacks capture) and
one sample has arrived. -/
def st7 : AppState :=
  watchPositionOnSample (startLocationMonitoring initialState true 7) c7c 1000

/-! ## Lemmas about the history buffer -/

theorem jsSliceLast_eq_reverse_take (k : Nat) (l : List α) :
    jsSliceLast k l = (l.reverse.take k).reverse := by
  rw [List.take_reverse, List.reverse_reverse]
  rfl

theorem jsSliceLast_length (k : Nat) (l : List α) :
    (jsSliceLast k l).length = min l.length k := by
  simp [jsSliceLast]
  omega

theorem jsSliceLast_of_length_le {k : Nat} {l : List α} (h : l.length ≤ k) :
    jsSliceLast k l = l := by
  unfold jsSliceLast
  have hz : l.length - k = 0 := by omega
  rw [hz, List.drop_zero]

theorem jsSliceLast_append_absorb (k : Nat) (l m : List α) :
    jsSliceLast k (jsSliceLast k l ++ m) = jsSliceLast k (l ++ m) := by
  simp only [jsSliceLast_eq_reverse_take, List.reverse_append, List.reverse_reverse]
  congr 1
  rw [List.take_append_eq_append_take, List.take_append_eq_append_take, List.take_take]
  congr 2
  omega

theorem foldl_histAppend_eq (ss : List Sample) :
    ∀ acc : List Sample, acc.length ≤ MAX_HISTORY_POINTS →
      ss.foldl histAppend acc = jsSliceLast MAX_HISTORY_POINTS (acc ++ ss) := by
  induction ss with
  | nil =>
      intro acc h
      rw [List.foldl_nil, List.append_nil]
      exact (jsSliceLast_of_length_le h).symm
  | cons s tl ih =>
      intro acc h
      have hlen : (histAppend acc s).length ≤ MAX_HISTORY_POINTS := by
        unfold histAppend
        rw [jsSliceLast_length]
        omega
      rw [List.foldl_cons, ih (histAppend acc s) hlen]
      unfold histAppend
      rw [jsSliceLast_append_absorb]
      congr 1
      simp

theorem applyAppend_locationHistory (st : AppState) (e : AppendEvent) :
    (applyAppend st e).locationHistory
      = histAppend st.locationHistory (eventSample e) := by
  cases e <;> rfl

theorem foldl_applyAppend_locationHistory (es : List AppendEvent) :
    ∀ st : AppState, (es.foldl applyAppend st).locationHistory
      = (es.map eventSample).foldl histAppend st.locationHistory := by
  induction es with
  | nil => intro st; rfl
  | cons e tl ih =>
      intro st
      rw [List.foldl_cons, List.map_cons, List.foldl_cons, ih,
        applyAppend_locationHistory]

/-- C1: appending N samples to the history buffer, by one-shot
acquisitions or monitoring updates in any mix, leaves exactly the last
min(N, 10) appended samples in arrival order: strict FIFO eviction at
capacity 10. -/
theorem history_buffer_fifo (es : List AppendEvent) :
    ((es.foldl applyAppend initialState).locationHistory).length
        = min es.length MAX_HISTORY_POINTS ∧
    (es.foldl applyAppend initialState).locationHistory
        = (es.map eventSample).drop (es.length - MAX_HISTORY_POINTS) := by
  have h := foldl_applyAppend_locationHistory es initialState
  rw [show initialState.locationHistory = [] from rfl] at h
  rw [h, foldl_histAppend_eq (es.map eventSample) [] (by simp [MAX_HISTORY_POINTS]),
    List.nil_append]
  constructor
  · rw [jsSliceLast_length, List.length_map]
  · unfold jsSliceLast
    rw [List.length_map]

/-! ## Progress loop -/

theorem progressTrace_min (n : Nat) : progressTrace n = min (10 * n) 100 := by
  induction n with
  | zero => rfl
  | succ n ih =>
      simp only [progressTrace, ih, locatingTick]
      split_ifs with h <;> simp <;> omega

/-- C8: during a single one-shot acquisition the cosmetic progress
value starts at 0, each 200 ms tick adds exactly 10 until the loop
self-terminates at 100, the value never exceeds 100 and never
decreases, and completion forces it to exactly 100 on the success and
the failure path alike. -/
theorem locating_progress_behavior :
    locatingIntervalMs = 200 ∧
    progressTrace 0 = 0 ∧
    (∀ st : AppState, (getUserLocationStart st true).locatingProgress = 0) ∧
    (∀ n : Nat, progressTrace n ≤ progressTrace (n + 1)) ∧
    (∀ n : Nat, progressTrace n ≤ 100) ∧
    (∀ n : Nat,
      (progressTrace (n + 1) = progressTrace n + 10 ∧
        (locatingTick (progressTrace n)).2 = true) ∨
      (progressTrace n = 100 ∧ progressTrace (n + 1) = 100 ∧
        (locatingTick (progressTrace n)).2 = false)) ∧
    (∀ (st : AppState) (c : Coords) (now : Nat),
      (getUserLocationComplete st (GeoResult.position c) now).locatingProgress = 100) ∧
    (∀ (st : AppState) (m : String) (now : Nat),
      (getUserLocationComplete st (GeoResult.geoError m) now).locatingProgress = 100) := by
  refine ⟨rfl, rfl, fun st => rfl, ?_, ?_, ?_, fun st c now => rfl, fun st m now => rfl⟩
  · intro n
    rw [progressTrace_min, progressTrace_min]
    omega
  · intro n
    rw [progressTrace_min]
    omega
  · intro n
    rcases Nat.lt_or_ge (progressTrace n) 100 with h | h
    · left
      constructor
      · show (locatingTick (progressTrace n)).1 = _
        unfold locatingTick
        rw [if_neg (by omega)]
      · unfold locatingTick
        rw [if_neg (by omega)]
    · have h1 : progressTrace n = 100 := by
        have := progressTrace_min n
        omega
      right
      refine ⟨h1, ?_, ?_⟩
      · show (locatingTick (progressTrace n)).1 = 100
        rw [h1]
        rfl
      · rw [h1]
        rfl

/-! ## Verification request shaping -/

/-- C2: whenever the enhanced checkLocation builds a request, that
request carries the current sample; the location_history field is
omitted entirely when the buffer holds fewer than 3 samples, and
otherwise holds exactly the 3 most recently appended samples in
arrival order. -/
theorem check_request_history_hint (st : AppState) (resp : VerifyOutcome)
    (req : CheckRequest) (h : (checkLocation st resp).2 = some req) :
    st.userLocation = some req.user_location ∧
    (st.locationHistory.length < 3 → req.location_history = none) ∧
    (3 ≤ st.locationHistory.length →
      req.location_history
        = some (st.locationHistory.drop (st.locationHistory.length - 3)) ∧
      (st.locationHistory.drop (st.locationHistory.length - 3)).length = 3) := by
  obtain ⟨bn, ci, co, bu, ul, lh, cr, lo, er, mu, wi, im, lp⟩ := st
  cases bu <;> cases ul <;> cases resp <;>
    simp only [checkLocation] at h <;>
    first
    | exact Option.noConfusion h
    | · injection h with h
        subst h
        refine ⟨rfl, fun hlt => ?_, fun hge => ?_⟩
        · replace hlt : lh.length < 3 := hlt
          show (if 3 ≤ lh.length then some (jsSliceLast 3 lh) else none) = none
          rw [if_neg (by omega)]
        · replace hge : 3 ≤ lh.length := hge
          constructor
          · show (if 3 ≤ lh.length then some (jsSliceLast 3 lh) else none) = _
            rw [if_pos hge]
            rfl
          · simp only [List.length_drop]
            omega

/-- Closed instance of C2 at a concrete three-sample buffer. -/
theorem check_request_history_hint_witness :
    cst2.userLocation = some creq2.user_location ∧
    creq2.location_history
      = some (cst2.locationHistory.drop (cst2.locationHistory.length - 3)) :=
  ⟨(check_request_history_hint cst2 (VerifyOutcome.netErr "x") creq2 (by decide)).1,
   ((check_request_history_hint cst2 (VerifyOutcome.netErr "x") creq2
      (by decide)).2.2 (by decide)).1⟩

/-- C3: getConfidenceColor is the colour rendering of the severity
cascade of the spec: substring tests for Definitely inside, Likely
inside, uncertain, Likely outside in that order, first match winning,
Tier E (red) for every other input including the empty and the absent
string. -/
theorem confidence_tier_mapping :
    (∀ c : String, getConfidenceColor (some c) = tierColor (severityTier c)) ∧
    getConfidenceColor none = tierColor Tier.E ∧
    severityTier "" = Tier.E ∧
    severityTier "Definitely inside boundary" = Tier.A ∧
    severityTier "Likely outside range" = Tier.D := by
  refine ⟨?_, rfl, by decide, by decide, by decide⟩
  intro c
  by_cases hc : c = ""
  · subst hc
    decide
  · simp only [getConfidenceColor, severityTier, if_neg hc]
    cases h1 : jsIncludes c "Definitely inside" <;>
      cases h2 : jsIncludes c "Likely inside" <;>
        cases h3 : jsIncludes c "uncertain" <;>
          cases h4 : jsIncludes c "Likely outside" <;>
            simp [h1, h2, h3, h4, tierColor]

/-- C4: without both a resolved building and a current sample,
checkLocation sets only the precondition error message and sends no
request; every other state component is untouched. -/
theorem precondition_error_no_request (st : AppState) (resp : VerifyOutcome)
    (h : st.building = none ∨ st.userLocation = none) :
    checkLocation st resp
      = ({ st with error := some "Building and user location are required" }, none) := by
  obtain ⟨bn, ci, co, bu, ul, lh, cr, lo, er, mu, wi, im, lp⟩ := st
  cases bu <;> cases ul <;>
    first
    | rfl
    | (exfalso; simp at h)

/-- Closed instance of C4: no resolved building, a service response
standing ready, still only the error slot changes and no request is
built. -/
theorem precondition_error_no_request_witness :
    checkLocation cst4 (VerifyOutcome.ok cres0)
      = ({ cst4 with error := some "Building and user location are required" }, none) :=
  precondition_error_no_request cst4 (VerifyOutcome.ok cres0) (Or.inl rfl)

/-! ## Failure frames -/

/-- Refutes C5 as stated: a non-2xx verification response whose detail
field is present but empty does not put that detail in the error slot;
the JS fallback (detail || generic) treats the empty string as
absent. -/
theorem verify_error_detail_counterexample :
    (checkLocation cst5 (VerifyOutcome.httpErr (some ""))).1.error ≠ some "" := by
  decide

/-- C5 amended: on every failing verification the sample, history,
building and all other state are retained; the only changes are the
error slot, set to the non-2xx detail when present and non-empty, to
the generic message when the detail is absent or empty, and to the
thrown message on a network failure, plus the cleared loading flag. -/
theorem verify_failure_frame (st : AppState) (b : Building) (loc : Sample)
    (hb : st.building = some b) (hu : st.userLocation = some loc) :
    (∀ (d : Option String) (s : String), d = some s → s ≠ "" →
      (checkLocation st (VerifyOutcome.httpErr d)).1
        = { st with error := some s, loading := false }) ∧
    (∀ d : Option String, d = none ∨ d = some "" →
      (checkLocation st (VerifyOutcome.httpErr d)).1
        = { st with error := some "Failed to check location", loading := false }) ∧
    (∀ m : String, (checkLocation st (VerifyOutcome.netErr m)).1
        = { st with error := some m, loading := false }) := by
  refine ⟨?_, ?_, ?_⟩
  · intro d s hd hs
    subst hd
    simp only [checkLocation, hb, hu, jsOrString, if_neg hs]
  · intro d hd
    rcases hd with rfl | rfl <;> simp [checkLocation, hb, hu, jsOrString]
  · intro m
    simp only [checkLocation, hb, hu]

/-- Closed instance of the amended C5 on the network-failure path. -/
theorem verify_failure_frame_witness :
    (checkLocation cst5 (VerifyOutcome.netErr "Failed to fetch")).1
      = { cst5 with error := some "Failed to fetch", loading := false } :=
  (verify_failure_frame cst5 b0 s0 rfl rfl).2.2 "Failed to fetch"

/-- Refutes C6 as stated: a non-2xx lookup response whose detail field
is present but empty does not put that detail in the error slot. -/
theorem lookup_error_detail_counterexample :
    (searchBuilding cst6 (LookupOutcome.httpErr (some ""))).1.error ≠ some "" := by
  decide

/-- C6 amended: a non-2xx building lookup clears the resolved building
and the map link and clears loading; the error slot receives the
detail field when present and non-empty, else the generic fallback
message. -/
theorem lookup_failure_clears_building (st : AppState)
    (hname : jsTrim st.buildingName ≠ "") :
    (∀ (d : Option String) (s : String), d = some s → s ≠ "" →
      (searchBuilding st (LookupOutcome.httpErr d)).1
        = { st with error := some s, building := none, mapUrl := none,
                    loading := false }) ∧
    (∀ d : Option String, d = none ∨ d = some "" →
      (searchBuilding st (LookupOutcome.httpErr d)).1
        = { st with error := some "Failed to find building", building := none,
                    mapUrl := none, loading := false }) := by
  constructor
  · intro d s hd hs
    subst hd
    simp only [searchBuilding, if_neg hname, jsOrString, if_neg hs]
  · intro d hd
    rcases hd with rfl | rfl <;> simp [searchBuilding, hname, jsOrString]

/-- Closed instance of the amended C6, the spec scenario with detail
"not found". -/
theorem lookup_failure_clears_building_witness :
    (searchBuilding cst6 (LookupOutcome.httpErr (some "not found"))).1
      = { cst6 with error := some "not found", building := none, mapUrl := none,
                    loading := false } :=
  (lookup_failure_clears_building cst6 (by decide)).1 (some "not found") "not found"
    rfl (by decide)

/-- C10: a successful lookup stores the new building and clears the
previously stored verification result at the same step, and the lookup
never touches the current sample or the history buffer. -/
theorem lookup_success_clears_previous_result (st : AppState) (b : Building)
    (hname : jsTrim st.buildingName ≠ "") :
    (searchBuilding st (LookupOutcome.ok b)).1.checkResult = none ∧
    (searchBuilding st (LookupOutcome.ok b)).1.building = some b ∧
    (∀ resp : LookupOutcome,
      (searchBuilding st resp).1.userLocation = st.userLocation ∧
      (searchBuilding st resp).1.locationHistory = st.locationHistory) := by
  refine ⟨?_, ?_, ?_⟩
  · simp only [searchBuilding, if_neg hname]
  · simp only [searchBuilding, if_neg hname]
  · intro resp
    cases resp <;> simp [searchBuilding, hname]

/-- Closed instance of C10: the previously displayed result is gone
once a new building resolves. -/
theorem lookup_success_clears_previous_result_witness :
    (searchBuilding cst10 (LookupOutcome.ok b0)).1.checkResult = none :=
  (lookup_success_clears_previous_result cst10 b0 (by decide)).1

/-! ## Monitoring error cleanup -/

/-- C7 evaluated at the failing scenario: monitoring was started from
the initial render (whose watchId value, none, the watchPosition
callbacks captured), one sample arrived, then the provider reports an
error.  The error is surfaced, the monitoring flag falls back to
false, and sample and history are retained, but the stale captured
watchId means clearWatch is never invoked and the stored handle 7 is
never cleared: the subscription handle is not released. -/
theorem monitor_error_stale_watch_cleanup :
    st7.watchId = some 7 ∧ st7.isMonitoring = true ∧
    (watchPositionOnError initialState.watchId st7 "Position unavailable").1.isMonitoring
      = false ∧
    (watchPositionOnError initialState.watchId st7 "Position unavailable").1.error
      = some "Error monitoring location: Position unavailable" ∧
    (watchPositionOnError initialState.watchId st7 "Position unavailable").1.userLocation
      = st7.userLocation ∧
    (watchPositionOnError initialState.watchId st7 "Position unavailable").1.locationHistory
      = st7.locationHistory ∧
    (watchPositionOnError initialState.watchId st7 "Position unavailable").1.watchId
      = some 7 ∧
    (watchPositionOnError initialState.watchId st7 "Position unavailable").2 = none := by
  decide

/-! ## Simple versus enhanced version -/

/-- Refutes C9 as stated: the observable requests of the two versions
are not equivalent.  The one-shot acquisition options differ (timeout
10000 versus 15000) and the verification bodies have different field
sets (user_lat and user_lng versus user_location). -/
theorem simple_subset_counterexample :
    getCurrentPositionOptions ≠ Simple.getCurrentPositionOptions ∧
    (checkLocation cst9 (VerifyOutcome.netErr "x")).2.map checkRequestFields
      = some ["building_name", "user_location"] ∧
    (Simple.checkLocation (projState cst9) (VerifyOutcome.netErr "x")).2.map
        simpleCheckRequestFields
      = some ["building_name", "user_lat", "user_lng"] ∧
    ["building_name", "user_location"]
      ≠ (["building_name", "user_lat", "user_lng"] : List String) := by
  decide

/-- C9 amended: under the projection that forgets the enhanced-only
state (history, monitoring, progress, sample timestamps) every simple
operation corresponds to the enhanced one: identical lookup behavior
and requests, identical acquisition state changes, identical
verification state changes, a verification request is sent in exactly
the same situations, and the shared request fields agree; but the
acquisition timeout and the verification body shape differ, so the
observable requests are not equivalent and the simple behavior is not
a strict subset. -/
theorem simple_enhanced_correspondence :
    (∀ (st : AppState) (resp : LookupOutcome),
      projState (searchBuilding st resp).1
          = (Simple.searchBuilding (projState st) resp).1 ∧
      (searchBuilding st resp).2 = (Simple.searchBuilding (projState st) resp).2) ∧
    (∀ (st : AppState) (supported : Bool),
      projState (getUserLocationStart st supported)
        = Simple.getUserLocationStart (projState st) supported) ∧
    (∀ (st : AppState) (res : GeoResult) (now : Nat),
      projState (getUserLocationComplete st res now)
        = Simple.getUserLocationComplete (projState st) res) ∧
    (∀ (st : AppState) (resp : VerifyOutcome),
      projState (checkLocation st resp).1
          = (Simple.checkLocation (projState st) resp).1 ∧
      (checkLocation st resp).2.isSome
          = (Simple.checkLocation (projState st) resp).2.isSome) ∧
    (∀ (st : AppState) (resp : VerifyOutcome) (rq : CheckRequest)
        (srq : Simple.CheckRequest),
      (checkLocation st resp).2 = some rq →
      (Simple.checkLocation (projState st) resp).2 = some srq →
      srq.building_name = rq.building_name ∧ srq.city = rq.city ∧
      srq.country = rq.country ∧ srq.user_lat = rq.user_location.lat ∧
      srq.user_lng = rq.user_location.lng) := by
  refine ⟨?_, ?_, ?_, ?_, ?_⟩
  · intro st resp
    obtain ⟨bn, ci, co, bu, ul, lh, cr, lo, er, mu, wi, im, lp⟩ := st
    by_cases hn : jsTrim bn = "" <;>
      cases resp <;>
        simp [searchBuilding, Simple.searchBuilding, projState, hn]
  · intro st supported
    obtain ⟨bn, ci, co, bu, ul, lh, cr, lo, er, mu, wi, im, lp⟩ := st
    cases supported <;> rfl
  · intro st res now
    obtain ⟨bn, ci, co, bu, ul, lh, cr, lo, er, mu, wi, im, lp⟩ := st
    cases res <;> rfl
  · intro st resp
    obtain ⟨bn, ci, co, bu, ul, lh, cr, lo, er, mu, wi, im, lp⟩ := st
    cases bu <;> cases ul <;> cases resp <;> exact ⟨rfl, rfl⟩
  · intro st resp rq srq h1 h2
    obtain ⟨bn, ci, co, bu, ul, lh, cr, lo, er, mu, wi, im, lp⟩ := st
    cases bu <;> cases ul <;> cases resp <;>
      simp only [checkLocation, Simple.checkLocation, projState] at h1 h2 <;>
      first
      | exact Option.noConfusion h1
      | · injection h1 with h1
          injection h2 with h2
          subst h1
          subst h2
          exact ⟨rfl, rfl, rfl, rfl, rfl⟩

/-- Closed instance of the amended C9: shared verification request
fields agree at a concrete session state. -/
theorem simple_enhanced_correspondence_witness :
    creqS9.building_name = creq9.building_name ∧ creqS9.city = creq9.city ∧
    creqS9.country = creq9.country ∧ creqS9.user_lat = creq9.user_location.lat ∧
    creqS9.user_lng = creq9.user_location.lng :=
  simple_enhanced_correspondence.2.2.2.2 cst9 (VerifyOutcome.netErr "x") creq9
    creqS9 (by decide) (by decide)
